import Mathlib

/-!
Verification development for the claimmaster research pipeline.

Dates are modelled as integer timestamps in milliseconds since the epoch
(the representation JavaScript `Date` arithmetic coerces to); a missing
(`null`/`undefined`) date is `Option.none`.  JavaScript numbers appearing
in the embedded fragments are integers throughout (counts, timestamps,
scores), so `Int` is used for them.  The comparison
`(end - start) / (1000*60*60*24*30) > 24` performed on IEEE doubles agrees
exactly with the integer comparison `end - start > 24 * (1000*60*60*24*30)`
for all representable date differences (the quotient is never within half
an ulp of 24 unless it equals 24), so the embedding states the latter.
-/

namespace ClaimMaster

/-- Milliseconds in the 30-day month both date-range validators use:
`1000 * 60 * 60 * 24 * 30`. -/
def msPerMonth : Int := 1000 * 60 * 60 * 24 * 30

/-- Model of `new Date(t)` applied to an existing date value `t`: copying a
date preserves its underlying timestamp. -/
def jsNewDate (t : Int) : Int := t

namespace ResearchConfig

/-- Embedding of `validateDateRange` from the research-configuration
component (`src/unnamed/part_000`, lines 182-195).  It copies its arguments
with `new Date` before comparing.  `none` models a missing endpoint, which
JavaScript rejects via `if (!start || !end) return false`. -/
def validateDateRange (start endv : Option Int) (now : Int) : Bool :=
  match start, endv with
  | some s, some e =>
    let startDate := jsNewDate s
    let endDate := jsNewDate e
    if startDate > endDate then false
    else if endDate > now then false
    else if endDate - startDate > 24 * msPerMonth then false
    else true
  | _, _ => false

end ResearchConfig

namespace InfluencerProfile

/-- Embedding of `validateDateRange` from
`src/frontend/src/components/InfluencerProfile.js` (lines 86-93), which
compares the argument dates directly instead of copying them first. -/
def validateDateRange (start endv : Option Int) (now : Int) : Bool :=
  match start, endv with
  | some s, some e =>
    if s > e then false
    else if e > now then false
    else if e - s > 24 * msPerMonth then false
    else true
  | _, _ => false

/-- Embedding of `handleDateRangeSubmit` (`InfluencerProfile.js`, lines
101-106): research is re-triggered only when the date range validated; the
return value records whether `loadInfluencerData` is invoked. -/
def handleDateRangeSubmit (isDateRangeValid : Bool) : Bool :=
  isDateRangeValid

end InfluencerProfile

/-! ### Products-count input handling -/

/-- Numeric value of a maximal leading run of decimal digits, or `none`
when the run is empty; the digit-consuming core of JavaScript `parseInt`. -/
def parseDigits (cs : List Char) : Option Nat :=
  let ds := cs.takeWhile Char.isDigit
  if ds.isEmpty then none
  else some (ds.foldl (fun a c => 10 * a + (c.toNat - 48)) 0)

/-- Model of JavaScript `parseInt` on a decimal input string: leading
whitespace is skipped, an optional sign is read, then the longest digit
prefix is converted; `none` models the `NaN` result when no digits are
found. -/
def jsParseInt (s : String) : Option Int :=
  let cs := s.data.dropWhile (fun c => c = ' ' || c = '\t' || c = '\n' || c = '\r')
  match cs with
  | '-' :: rest => (parseDigits rest).map (fun n => -(n : Int))
  | '+' :: rest => (parseDigits rest).map (fun n => (n : Int))
  | _ => (parseDigits cs).map (fun n => (n : Int))

/-- Model of the JavaScript expression `x || 0` applied to a `parseInt`
result: `NaN` (here `none`) and `0` are falsy and give `0`. -/
def jsOrZero (o : Option Int) : Int :=
  match o with
  | none => 0
  | some v => if v = 0 then 0 else v

/-- Embedding of `handleProductsCountChange`
(`src/frontend/src/components/ResearchConfig.js`, lines 123-128, and
identically `src/unnamed/part_000`, lines 175-180): parse the input,
defaulting to 0, then clamp between 0 and 10. -/
def handleProductsCountChange (input : String) : Int :=
  let value := jsOrZero (jsParseInt input)
  min (max value 0) 10

/-- Stored `productsCount` after a sequence of input events, starting from
the initial configuration value 10; each event replaces the stored count
with the handler result for its input string. -/
def productsCountAfter (events : List String) : Int :=
  events.foldl (fun _ s => handleProductsCountChange s) 10

/-! ### Client-side status poller -/

/-- JavaScript truthiness of an optional string field: absent (`none`) and
the empty string are falsy. -/
def jsTruthyStr (o : Option String) : Bool :=
  match o with
  | none => false
  | some s => !s.isEmpty

/-- Model of the JavaScript expression `x || d` for an optional string
`x` and default `d`. -/
def jsOrElse (o : Option String) (d : String) : String :=
  if jsTruthyStr o then o.getD d else d

/-- One polled response body as `loadInfluencerData` inspects it
(`InfluencerProfile.js`, lines 151-201): the optional backend `error`
string, the `status` field, whether an `id` field is present (truthy), and
the optional `message` used when `status` is `error`. -/
structure PollResponse where
  errorMsg : Option String
  status : String
  hasId : Bool
  message : Option String
  deriving DecidableEq

/-- Outcome of the polling loop: the research data was obtained, or an
error was thrown with the given message. -/
inductive PollOutcome where
  | success
  | failure (msg : String)
  deriving DecidableEq

/-- Polling attempt budget, `maxAttempts = 30` in `loadInfluencerData`
(`InfluencerProfile.js`, line 115) and `pollResearch`
(`InfluencerLeaderboard.js`, line 47). -/
def maxAttempts : Nat := 30

/-- Embedding of the polling loop of `loadInfluencerData`
(`InfluencerProfile.js`, lines 151-203): while fewer than `maxAttempts`
attempts have been made, fetch the next status response; a truthy backend
`error` field throws it, `complete` with an id returns the data, status
`error` throws `data.message || "Research failed"`, anything else waits
two seconds and polls again; once the budget is exhausted the loop throws
the timeout error. -/
def pollLoop (fetch : Nat → PollResponse) (attempts : Nat) : PollOutcome :=
  if h : attempts < maxAttempts then
    let d := fetch attempts
    if jsTruthyStr d.errorMsg then .failure (d.errorMsg.getD "")
    else if d.status == "complete" && d.hasId then .success
    else if d.status == "error" then .failure (jsOrElse d.message "Research failed")
    else pollLoop fetch (attempts + 1)
  else .failure "Research timed out. Please try again."
termination_by maxAttempts - attempts
decreasing_by omega

/-- A response on which the polling loop stops: a truthy backend error, a
completed result with an id, or an error status. -/
def isTerminalResponse (d : PollResponse) : Bool :=
  jsTruthyStr d.errorMsg || (d.status == "complete" && d.hasId) || d.status == "error"

/-- One discovery status response as `pollResearch`
(`InfluencerLeaderboard.js`, lines 49-90) inspects it: whether the fetch
returned ok, the `status` field, and whether an `influencers` field is
present (truthy); the `logs` and `stage` fields only update display state
and never affect control flow. -/
structure DiscoveryResponse where
  ok : Bool
  status : String
  hasInfluencers : Bool
  deriving DecidableEq

/-- Embedding of the discovery poller `pollResearch`
(`InfluencerLeaderboard.js`, lines 49-90).  Unlike `loadInfluencerData`,
each invocation fetches the status response FIRST: a failed fetch throws
(caught and reported as the error message), `complete` with influencers
succeeds, and only then is the attempt budget checked — while `attempts`
is below `maxAttempts` the counter is incremented and the poller recurses
after a two-second wait, otherwise the timeout error is thrown (caught and
reported).  `attempts` is the value of the mutable counter at the time of
the invocation; the response stream is indexed by it, so the invocations
read responses `0 .. maxAttempts` — one more fetch than the budget. -/
def pollResearch (fetch : Nat → DiscoveryResponse) (attempts : Nat) : PollOutcome :=
  let d := fetch attempts
  if !d.ok then .failure "Failed to fetch research status"
  else if d.status == "complete" && d.hasInfluencers then .success
  else if h : attempts < maxAttempts then pollResearch fetch (attempts + 1)
  else .failure "Research timed out. Please try again."
termination_by maxAttempts - attempts
decreasing_by omega

/-- A discovery response on which `pollResearch` stops: a failed fetch or
a completed result carrying influencers. -/
def isTerminalDiscoveryResponse (d : DiscoveryResponse) : Bool :=
  !d.ok || (d.status == "complete" && d.hasInfluencers)

/-- A discovery response stream that is still in progress on each of the
first `maxAttempts` polls and completes on the poll after them. -/
def discoveryProbe : Nat → DiscoveryResponse :=
  fun i => if i < maxAttempts then ⟨true, "analyzing", false⟩
    else ⟨true, "complete", true⟩

/-! ### Leaderboard filtering and sorting -/

/-- Claim record as the leaderboard consumes it: only the `status` field
is inspected. -/
structure LBClaim where
  status : String
  deriving DecidableEq

/-- Influencer record as `InfluencerLeaderboard.js` consumes it; `bio`,
`topics` and `claims` may be absent, which the code defaults with `|| ""`,
`|| [inf.category]` and `?.` plus `|| 0` respectively. -/
structure LBInfluencer where
  name : String
  bio : Option String
  category : String
  topics : Option (List String)
  trustScore : Int
  followers : Int
  claims : Option (List LBClaim)
  deriving DecidableEq

/-- Lower-casing of a string, modelling `String.prototype.toLowerCase` on
the characters the app compares. -/
def jsToLower (s : String) : String := ⟨s.data.map Char.toLower⟩

/-- Substring test on character lists: the needle occurs at some position
of the haystack. -/
def containsFrom (hay needle : List Char) : Bool :=
  match hay with
  | [] => needle.isEmpty
  | c :: t => needle.isPrefixOf (c :: t) || containsFrom t needle

/-- Model of `String.prototype.includes`. -/
def jsIncludes (s needle : String) : Bool := containsFrom s.data needle.data

/-- Search filter of `filteredInfluencers` (`InfluencerLeaderboard.js`,
lines 121-123): the query matches the lower-cased name or bio. -/
def matchesSearch (inf : LBInfluencer) (q : String) : Bool :=
  jsIncludes (jsToLower inf.name) (jsToLower q) ||
    jsIncludes (jsToLower (inf.bio.getD "")) (jsToLower q)

/-- Category filter of `filteredInfluencers` (`InfluencerLeaderboard.js`,
lines 124-126). -/
def matchesCategory (inf : LBInfluencer) (selectedCategory : Option String) : Bool :=
  match selectedCategory with
  | none => true
  | some c => (inf.topics.getD [inf.category]).contains c

/-- Number of verified claims,
`inf.claims?.filter(c => c.status === "verified")?.length || 0`. -/
def verifiedClaimsCount (inf : LBInfluencer) : Nat :=
  ((inf.claims.getD []).filter (fun c => c.status == "verified")).length

/-- The sort comparator switch of `filteredInfluencers`
(`InfluencerLeaderboard.js`, lines 129-141), expressed as the ordering
relation it induces: `leaderboardLe sortBy a b` holds when the comparator
value for `(a, b)` is at most zero, i.e. when `a` may precede `b`.  The
default branch returns comparator 0, under which every order is
allowed. -/
def leaderboardLe (sortBy : String) (a b : LBInfluencer) : Bool :=
  if sortBy == "trustScore" then decide (b.trustScore ≤ a.trustScore)
  else if sortBy == "followers" then decide (b.followers ≤ a.followers)
  else if sortBy == "verifiedClaims" then decide (verifiedClaimsCount b ≤ verifiedClaimsCount a)
  else true

/-- Propositional form of `leaderboardLe`, the relation the sort
establishes. -/
def sortRel (sortBy : String) (a b : LBInfluencer) : Prop :=
  leaderboardLe sortBy a b = true

instance (sortBy : String) : DecidableRel (sortRel sortBy) :=
  fun a b => instDecidableEqBool (leaderboardLe sortBy a b) true

/-- Embedding of `filteredInfluencers` (`InfluencerLeaderboard.js`, lines
119-141): filter by search query and selected category, then sort with the
comparator for `sortBy`.  `Array.prototype.sort` with a consistent
comparator produces a stable permutation ordered by the comparator, which
the stable `List.insertionSort` models. -/
def filteredInfluencers (influencers : List LBInfluencer) (searchQuery : String)
    (selectedCategory : Option String) (sortBy : String) : List LBInfluencer :=
  List.insertionSort (sortRel sortBy)
    (influencers.filter (fun inf =>
      matchesSearch inf searchQuery && matchesCategory inf selectedCategory))

instance (sortBy : String) : IsTotal LBInfluencer (sortRel sortBy) where
  total := by
    intro a b
    unfold sortRel leaderboardLe
    split_ifs <;> simp <;> omega

instance (sortBy : String) : IsTrans LBInfluencer (sortRel sortBy) where
  trans := by
    intro a b c
    unfold sortRel leaderboardLe
    split_ifs <;> simp <;> omega

/-! ### Research orchestrator state machine

The orchestrator itself is backend code that is not part of the frontend
sources; the state machine below is modelled from the spec (section 4.5)
and verified against the claimed invariants. -/

/-- Modelled from the spec: the pipeline stage of a research job, spec
section 4.5; the backend orchestrator implementing the state machine is
absent from the sources. -/
inductive Stage where
  | queued
  | gathering_content
  | extracting_claims
  | verifying_claims
  | aggregating
  | complete
  | failed
  deriving DecidableEq

/-- Modelled from the spec: successor stage in the fixed pipeline order
of spec section 4.5; `none` for terminal stages. -/
def nextStage : Stage → Option Stage
  | .queued => some .gathering_content
  | .gathering_content => some .extracting_claims
  | .extracting_claims => some .verifying_claims
  | .verifying_claims => some .aggregating
  | .aggregating => some .complete
  | .complete => none
  | .failed => none

/-- Modelled from the spec: terminal stages of a job, `complete` and
`failed`. -/
def Stage.isTerminal : Stage → Bool
  | .complete => true
  | .failed => true
  | _ => false

/-- Modelled from the spec: one progress-log record with stage,
human-readable message and timestamp. -/
structure LogEntry where
  stage : Stage
  message : String
  timestamp : Nat
  deriving DecidableEq

/-- Modelled from the spec: the orchestrator-owned state of one research
job observable by pollers — current stage and the append-only progress
log.  The backend orchestrator holding it is absent from the sources. -/
structure ResearchJob where
  stage : Stage
  progressLog : List LogEntry
  deriving DecidableEq

/-- Modelled from the spec: timestamp of the most recent progress entry
(0 for an empty log). -/
def lastTimestamp (j : ResearchJob) : Nat :=
  match j.progressLog.getLast? with
  | some e => e.timestamp
  | none => 0

/-- Modelled from the spec: the transitions the orchestrator may perform
on a job (spec section 4.5).  Transitions are strictly sequential with no
skipping; re-entry is allowed only as a retry of the current stage;
`failed` is reachable from any non-terminal stage; every transition
appends exactly one log entry whose timestamp is not below the previous
entry. -/
inductive OrchStep : ResearchJob → ResearchJob → Prop where
  | advance (j : ResearchJob) (s : Stage) (m : String) (t : Nat)
      (hnext : nextStage j.stage = some s) (ht : lastTimestamp j ≤ t) :
      OrchStep j ⟨s, j.progressLog ++ [⟨s, m, t⟩]⟩
  | retry (j : ResearchJob) (m : String) (t : Nat)
      (hterm : j.stage.isTerminal = false) (ht : lastTimestamp j ≤ t) :
      OrchStep j ⟨j.stage, j.progressLog ++ [⟨j.stage, m, t⟩]⟩
  | fail (j : ResearchJob) (m : String) (t : Nat)
      (hterm : j.stage.isTerminal = false) (ht : lastTimestamp j ≤ t) :
      OrchStep j ⟨.failed, j.progressLog ++ [⟨.failed, m, t⟩]⟩

/-- Modelled from the spec: a freshly created job — queued, with its
creation logged. -/
def initialJob (m : String) (t : Nat) : ResearchJob :=
  ⟨.queued, [⟨.queued, m, t⟩]⟩

/-- Reachability under orchestrator transitions. -/
def JobReachable (j j' : ResearchJob) : Prop :=
  Relation.ReflTransGen OrchStep j j'

/-- The per-entry succession relation the claim asserts of the observed
progress log: consecutive entries carry non-decreasing timestamps and the
later stage repeats the earlier one (retry), advances exactly one step in
the fixed order (no skipping), or is `failed`. -/
def entryFollows (e1 e2 : LogEntry) : Prop :=
  e1.timestamp ≤ e2.timestamp ∧
    (e2.stage = e1.stage ∨ nextStage e1.stage = some e2.stage ∨ e2.stage = .failed)

instance : DecidableRel entryFollows := fun e1 e2 => by
  unfold entryFollows; infer_instance

/-- Induction invariant for reachable jobs: the log is an `entryFollows`
chain and its last entry records the current stage. -/
def JobInv (j : ResearchJob) : Prop :=
  List.Chain' entryFollows j.progressLog ∧
    ∀ e ∈ j.progressLog.getLast?, e.stage = j.stage

/-! ### Idempotent research submission

Modelled from the spec (sections 3, 4.5, 8): the job registry is keyed by
subjectKey; the backend implementing it is absent from the sources. -/

/-- Modelled from the spec: lifecycle summary of a registered research
job, as far as submission is concerned.  In-flight and cached (completed,
unexpired) jobs are returned as-is on resubmission; only a failed job is
superseded by a new one. -/
inductive JobStatus where
  | inFlight
  | cached
  | failedJob
  deriving DecidableEq

/-- Modelled from the spec: a registry record — job id, lifecycle status,
normalized request parameters. -/
structure JobRec where
  jobId : Nat
  status : JobStatus
  params : String
  deriving DecidableEq

/-- Modelled from the spec: the orchestrator registry — jobs keyed by
subjectKey (atomic check-and-create), plus the next fresh job id.  The
backend registry is absent from the sources. -/
structure Orchestrator where
  jobs : List (String × JobRec)
  nextId : Nat
  deriving DecidableEq

/-- Modelled from the spec: `submit(subjectKey, params)` returns the
existing job if one is in-flight or cached for the subjectKey (idempotent
submission); otherwise it creates and begins a new in-flight job and
returns its id immediately (spec section 4.5). -/
def submit (o : Orchestrator) (subjectKey : String) (params : String) :
    Nat × Orchestrator :=
  match o.jobs.lookup subjectKey with
  | some j =>
    if j.status = .inFlight ∨ j.status = .cached then (j.jobId, o)
    else
      (o.nextId,
        ⟨(subjectKey, ⟨o.nextId, .inFlight, params⟩) ::
            o.jobs.filter (fun p => !(p.1 == subjectKey)), o.nextId + 1⟩)
  | none =>
    (o.nextId, ⟨(subjectKey, ⟨o.nextId, .inFlight, params⟩) :: o.jobs, o.nextId + 1⟩)

/-- Modelled from the spec: number of in-flight jobs registered for a
subjectKey. -/
def inFlightCount (o : Orchestrator) (key : String) : Nat :=
  (o.jobs.filter (fun p => p.1 == key && p.2.status == JobStatus.inFlight)).length

/-- Registry well-formedness: at most one entry per subjectKey. -/
def KeysNodup (o : Orchestrator) : Prop :=
  (o.jobs.map Prod.fst).Nodup

/-! ### Claim verification

Modelled from the spec (section 4.3): the verifier is backend code absent
from the sources.  The scoring function is the implementation choice
`clamp(50 + 25 * net, 0, 100)` with `net` the corroborating minus
contradicting citation count, which is monotone in the net evidence
strength and, with no citations, stays at 50. -/

/-- Modelled from the spec: verification status of a claim. -/
inductive ClaimStatus where
  | verified
  | questionable
  | debunked
  deriving DecidableEq

/-- Modelled from the spec: one piece of evidence for a claim — citation
record plus whether it contradicts the claim and whether it does so with
high confidence. -/
structure SourceCitation where
  title : String
  sourceName : String
  url : String
  contradicts : Bool
  highConfidence : Bool
  deriving DecidableEq

/-- Modelled from the spec: number of corroborating citations. -/
def corroboratingCount (cs : List SourceCitation) : Nat :=
  (cs.filter (fun c => !c.contradicts)).length

/-- Modelled from the spec: number of contradicting citations. -/
def contradictingCount (cs : List SourceCitation) : Nat :=
  (cs.filter (fun c => c.contradicts)).length

/-- Modelled from the spec: clamp an integer into `[0, 100]`. -/
def clamp100 (x : Int) : Int := min (max x 0) 100

/-- Modelled from the spec: trust score of one claim, monotone in the net
evidence strength and clamped to `[0, 100]`. -/
def scoreOf (cs : List SourceCitation) : Int :=
  clamp100 (50 + 25 * ((corroboratingCount cs : Int) - (contradictingCount cs : Int)))

/-- Modelled from the spec: decision policy of section 4.3 — `debunked`
needs a directly contradicting high-confidence citation, `verified` needs
a corroborating citation and no contradicting one, everything else (in
particular zero citations) is `questionable`. -/
def statusOf (cs : List SourceCitation) : ClaimStatus :=
  if cs.isEmpty then .questionable
  else if cs.any (fun c => c.contradicts && c.highConfidence) then .debunked
  else if 1 ≤ corroboratingCount cs ∧ contradictingCount cs = 0 then .verified
  else .questionable

/-- Modelled from the spec: a claim after verification — immutable record
of text, category, status, trust score and citations. -/
structure VerifiedClaim where
  text : String
  category : String
  status : ClaimStatus
  trustScore : Int
  sourceCitations : List SourceCitation
  deriving DecidableEq

/-- Modelled from the spec: the verifier classifies one claim from the
evidence gathered for it. -/
def classifyClaim (text category : String) (cs : List SourceCitation) : VerifiedClaim :=
  ⟨text, category, statusOf cs, scoreOf cs, cs⟩

/-- Modelled from the spec: a candidate claim entering verification. -/
structure CandidateClaim where
  text : String
  category : String
  deriving DecidableEq

/-- Modelled from the spec: per-claim verification outcome delivered by
the literature sources — gathered evidence, or a per-claim
`VerificationTimeout`. -/
inductive VerifyOutcome where
  | evidence (cs : List SourceCitation)
  | timeout
  deriving DecidableEq

/-- Modelled from the spec: result recorded for one claim — a timeout is
caught at claim granularity and recorded as `questionable` with zero
citations instead of propagating. -/
def verifyOne (text category : String) (o : VerifyOutcome) : VerifiedClaim :=
  match o with
  | .evidence cs => classifyClaim text category cs
  | .timeout => ⟨text, category, .questionable, scoreOf [], []⟩

/-- Modelled from the spec: verification of a claim list starting at
claim index `i`; outcome `n` is the verdict of the sources on the claim
at index `n`. -/
def verifyClaimsFrom (i : Nat) (cs : List CandidateClaim)
    (outcomes : Nat → VerifyOutcome) : List VerifiedClaim :=
  match cs with
  | [] => []
  | c :: t => verifyOne c.text c.category (outcomes i) :: verifyClaimsFrom (i + 1) t outcomes

/-- Modelled from the spec: the `verifying_claims` stage verifies every
candidate claim, isolating failures at claim granularity. -/
def verifyClaims (cs : List CandidateClaim) (outcomes : Nat → VerifyOutcome) :
    List VerifiedClaim :=
  verifyClaimsFrom 0 cs outcomes

/-- Modelled from the spec: outcome of a job run as far as the
verification stage is concerned. -/
structure JobResult where
  stage : Stage
  claims : List VerifiedClaim
  deriving DecidableEq

/-- Modelled from the spec: per-claim timeouts never escalate, so a job
whose remaining stages succeed completes with all claims recorded. -/
def runVerificationJob (cs : List CandidateClaim) (outcomes : Nat → VerifyOutcome) :
    JobResult :=
  ⟨.complete, verifyClaims cs outcomes⟩

/-! ### Snapshot cache

Modelled from the spec (sections 3, 6, 8): the cache sits behind the
backend `getInfluencer` endpoint, absent from the sources.  Snapshot
equality models byte-for-byte equality of the serialized snapshot. -/

/-- Modelled from the spec: the cached, user-facing snapshot of one
completed research run. -/
structure Snapshot where
  name : String
  category : String
  currentTrustScore : Int
  claims : List VerifiedClaim
  deriving DecidableEq

/-- Modelled from the spec: a cache entry — the snapshot and when it was
stored. -/
structure CacheEntry where
  snapshot : Snapshot
  storedAt : Nat
  deriving DecidableEq

/-- Modelled from the spec: fixed cache TTL of 24 hours in
milliseconds. -/
def cacheTTLms : Nat := 24 * 60 * 60 * 1000

/-- Modelled from the spec: backend state visible to `getInfluencer` —
the keyed cache and a counter of upstream calls made.  The backend is
absent from the sources. -/
structure Backend where
  cache : List (String × CacheEntry)
  upstreamCalls : Nat
  deriving DecidableEq

/-- Modelled from the spec: result of `getInfluencer` — the snapshot
(with its `fromCache` flag) or the current in-flight status of the
research triggered instead. -/
inductive GetInfluencerResult where
  | snapshot (s : Snapshot) (fromCache : Bool)
  | pending
  deriving DecidableEq

/-- Modelled from the spec: `getInfluencer(subjectName)` serves from the
cache under key `research:{subjectKey}` when present and unexpired,
marking the result `fromCache` and making no upstream call; otherwise it
triggers `submitResearch` semantics (an upstream call) and reports
in-flight status. -/
def getInfluencer (b : Backend) (subjectKey : String) (now : Nat) :
    GetInfluencerResult × Backend :=
  match b.cache.lookup ("research:" ++ subjectKey) with
  | some entry =>
    if now < entry.storedAt + cacheTTLms then
      (.snapshot entry.snapshot true, b)
    else (.pending, ⟨b.cache, b.upstreamCalls + 1⟩)
  | none => (.pending, ⟨b.cache, b.upstreamCalls + 1⟩)

/-- Modelled from the spec: the single cache write of a job, performed at
its `complete` transition. -/
def completeJob (b : Backend) (subjectKey : String) (s : Snapshot) (now : Nat) :
    Backend :=
  ⟨("research:" ++ subjectKey, ⟨s, now⟩) :: b.cache, b.upstreamCalls⟩

theorem handleProductsCountChange_mem (s : String) :
    0 ≤ handleProductsCountChange s ∧ handleProductsCountChange s ≤ 10 := by
  unfold handleProductsCountChange
  constructor
  · exact le_min (le_max_right _ _) (by norm_num)
  · exact min_le_right _ _

theorem foldl_productsCount_bounds (evs : List String) (init : Int)
    (h0 : 0 ≤ init) (h1 : init ≤ 10) :
    0 ≤ evs.foldl (fun _ s => handleProductsCountChange s) init ∧
      evs.foldl (fun _ s => handleProductsCountChange s) init ≤ 10 := by
  induction evs generalizing init with
  | nil => exact ⟨h0, h1⟩
  | cons e t ih =>
    exact ih _ (handleProductsCountChange_mem e).1 (handleProductsCountChange_mem e).2

/-- C3: a submission date range `(start, end)` is accepted by the
validator exactly when `start ≤ end`, `end ≤ now`, and the span
`end - start` is at most 24 of the 30-day months the code measures with;
a range with a missing endpoint is rejected, and a rejected range never
triggers the research submission (`handleDateRangeSubmit` does not fire on
an invalid range). -/
theorem dateRange_accepted_iff (start endv : Option Int) (now s e : Int) :
    (InfluencerProfile.validateDateRange (some s) (some e) now = true ↔
      s ≤ e ∧ e ≤ now ∧ e - s ≤ 24 * msPerMonth) ∧
    (InfluencerProfile.validateDateRange start endv now = false →
      InfluencerProfile.handleDateRangeSubmit
        (InfluencerProfile.validateDateRange start endv now) = false) ∧
    (InfluencerProfile.validateDateRange none endv now = false ∧
      InfluencerProfile.validateDateRange start none now = false) := by
  refine ⟨?_, ?_, ?_, ?_⟩
  · simp only [InfluencerProfile.validateDateRange]
    split_ifs with h1 h2 h3 <;> simp <;> omega
  · intro h
    unfold InfluencerProfile.handleDateRangeSubmit
    exact h
  · cases endv <;> rfl
  · cases start <;> rfl

/-- Closed witness for `dateRange_accepted_iff`, instantiated at a
six-month range evaluated at epoch time 16000000000000. -/
theorem dateRange_accepted_iff_witness :
    (InfluencerProfile.validateDateRange (some 100) (some 200) 300 = true ↔
      (100 : Int) ≤ 200 ∧ (200 : Int) ≤ 300 ∧ (200 : Int) - 100 ≤ 24 * msPerMonth) ∧
    (InfluencerProfile.validateDateRange (some 100) (some 200) 300 = false →
      InfluencerProfile.handleDateRangeSubmit
        (InfluencerProfile.validateDateRange (some 100) (some 200) 300) = false) ∧
    (InfluencerProfile.validateDateRange none (some 200) 300 = false ∧
      InfluencerProfile.validateDateRange (some 100) none 300 = false) :=
  dateRange_accepted_iff (some 100) (some 200) 300 100 200

/-- C9: the two independently implemented date-range validators compute
the same predicate: the copy through `new Date` in the
research-configuration version is the identity on the underlying
timestamp, so for every pair of (possibly missing) date values and every
current time the two functions agree; moreover the common predicate
rejects exactly the ranges with a missing endpoint, `start` after `end`,
`end` in the future, or a span exceeding 24 times 30 days. -/
theorem validateDateRange_agree (start endv : Option Int) (now s e : Int) :
    ResearchConfig.validateDateRange start endv now =
      InfluencerProfile.validateDateRange start endv now ∧
    (ResearchConfig.validateDateRange (some s) (some e) now = false ↔
      e < s ∨ now < e ∨ 24 * msPerMonth < e - s) ∧
    ResearchConfig.validateDateRange none endv now = false ∧
    ResearchConfig.validateDateRange start none now = false := by
  refine ⟨?_, ?_, ?_, ?_⟩
  · cases start <;> cases endv <;> rfl
  · simp only [ResearchConfig.validateDateRange, jsNewDate]
    split_ifs with h1 h2 h3 <;> simp <;> omega
  · cases endv <;> rfl
  · cases start <;> rfl

/-- Closed witness for `validateDateRange_agree` at a concrete range. -/
theorem validateDateRange_agree_witness :
    ResearchConfig.validateDateRange (some 0) (some 50) 60 =
      InfluencerProfile.validateDateRange (some 0) (some 50) 60 ∧
    (ResearchConfig.validateDateRange (some 0) (some 50) 60 = false ↔
      (50 : Int) < 0 ∨ (60 : Int) < 50 ∨ 24 * msPerMonth < (50 : Int) - 0) ∧
    ResearchConfig.validateDateRange none (some 50) 60 = false ∧
    ResearchConfig.validateDateRange (some 0) none 60 = false :=
  validateDateRange_agree (some 0) (some 50) 60 0 50

/-- C10: after every products-count input event the stored count is an
integer in `[0, 10]`: an input string with no parsable integer is mapped
to 0, and the parsed value is clamped into `[0, 10]`, so no sequence of
input events starting from the initial value 10 ever stores a count
outside `[0, 10]`. -/
theorem productsCount_clamped (events : List String) (s : String) :
    (0 ≤ productsCountAfter events ∧ productsCountAfter events ≤ 10) ∧
    (jsParseInt s = none → handleProductsCountChange s = 0) ∧
    (0 ≤ handleProductsCountChange s ∧ handleProductsCountChange s ≤ 10) := by
  refine ⟨?_, ?_, handleProductsCountChange_mem s⟩
  · exact foldl_productsCount_bounds events 10 (by norm_num) (by norm_num)
  · intro h
    simp [handleProductsCountChange, jsOrZero, h]

/-- Closed witness for `productsCount_clamped`: a non-numeric event
followed by an out-of-range numeric event. -/
theorem productsCount_clamped_witness :
    (0 ≤ productsCountAfter ["abc", "37"] ∧ productsCountAfter ["abc", "37"] ≤ 10) ∧
    (jsParseInt "abc" = none → handleProductsCountChange "abc" = 0) ∧
    (0 ≤ handleProductsCountChange "abc" ∧ handleProductsCountChange "abc" ≤ 10) :=
  productsCount_clamped ["abc", "37"] "abc"

theorem pollLoop_congr (fetch g : Nat → PollResponse) (a : Nat)
    (h : ∀ i, a ≤ i → i < maxAttempts → fetch i = g i) :
    pollLoop fetch a = pollLoop g a := by
  conv_lhs => rw [pollLoop.eq_def]
  conv_rhs => rw [pollLoop.eq_def]
  by_cases hlt : a < maxAttempts
  · simp only [dif_pos hlt]
    have hfa : fetch a = g a := h a (Nat.le_refl a) hlt
    have hrec : pollLoop fetch (a + 1) = pollLoop g (a + 1) :=
      pollLoop_congr fetch g (a + 1) (fun i hi hlt2 => h i (by omega) hlt2)
    rw [hfa, hrec]
  · simp only [dif_neg hlt]
termination_by maxAttempts - a
decreasing_by omega

theorem pollLoop_stalls (fetch : Nat → PollResponse) (a : Nat)
    (h : ∀ i, a ≤ i → i < maxAttempts → isTerminalResponse (fetch i) = false) :
    pollLoop fetch a = .failure "Research timed out. Please try again." := by
  rw [pollLoop.eq_def]
  by_cases hlt : a < maxAttempts
  · simp only [dif_pos hlt]
    have ht := h a (Nat.le_refl a) hlt
    simp only [isTerminalResponse, Bool.or_eq_false_iff] at ht
    obtain ⟨⟨h1, h2⟩, h3⟩ := ht
    simp only [h1, h2, h3, Bool.false_eq_true, if_false]
    exact pollLoop_stalls fetch (a + 1) (fun i hi hlt2 => h i (by omega) hlt2)
  · simp only [dif_neg hlt]
termination_by maxAttempts - a
decreasing_by omega

theorem pollResearch_congr (fetch g : Nat → DiscoveryResponse) (a : Nat)
    (ha : a ≤ maxAttempts)
    (h : ∀ i, a ≤ i → i ≤ maxAttempts → fetch i = g i) :
    pollResearch fetch a = pollResearch g a := by
  conv_lhs => rw [pollResearch.eq_def]
  conv_rhs => rw [pollResearch.eq_def]
  have hfa : fetch a = g a := h a (Nat.le_refl a) ha
  rw [hfa]
  by_cases hlt : a < maxAttempts
  · have hrec : pollResearch fetch (a + 1) = pollResearch g (a + 1) :=
      pollResearch_congr fetch g (a + 1) hlt (fun i hi h2 => h i (by omega) h2)
    rw [hrec]
  · simp only [dif_neg hlt]
termination_by maxAttempts - a
decreasing_by omega

theorem pollResearch_stalls (fetch : Nat → DiscoveryResponse) (a : Nat)
    (ha : a ≤ maxAttempts)
    (h : ∀ i, a ≤ i → i ≤ maxAttempts → isTerminalDiscoveryResponse (fetch i) = false) :
    pollResearch fetch a = .failure "Research timed out. Please try again." := by
  rw [pollResearch.eq_def]
  have ht := h a (Nat.le_refl a) ha
  simp only [isTerminalDiscoveryResponse, Bool.or_eq_false_iff] at ht
  obtain ⟨h1, h2⟩ := ht
  simp only [h1, h2, Bool.false_eq_true, if_false]
  by_cases hlt : a < maxAttempts
  · simp only [dif_pos hlt]
    exact pollResearch_stalls fetch (a + 1) hlt (fun i hi h3 => h i (by omega) h3)
  · simp only [dif_neg hlt]
termination_by maxAttempts - a
decreasing_by omega

theorem pollResearch_succeeds_late (fetch : Nat → DiscoveryResponse) (a : Nat)
    (ha : a ≤ maxAttempts)
    (hnt : ∀ i, a ≤ i → i < maxAttempts → isTerminalDiscoveryResponse (fetch i) = false)
    (hok : (!(fetch maxAttempts).ok) = false)
    (hdone : ((fetch maxAttempts).status == "complete" &&
      (fetch maxAttempts).hasInfluencers) = true) :
    pollResearch fetch a = .success := by
  rw [pollResearch.eq_def]
  by_cases hlt : a < maxAttempts
  · have ht := hnt a (Nat.le_refl a) hlt
    simp only [isTerminalDiscoveryResponse, Bool.or_eq_false_iff] at ht
    obtain ⟨h1, h2⟩ := ht
    simp only [h1, h2, Bool.false_eq_true, if_false, dif_pos hlt]
    exact pollResearch_succeeds_late fetch (a + 1) hlt
      (fun i hi h3 => hnt i (by omega) h3) hok hdone
  · have haeq : a = maxAttempts := by omega
    subst haeq
    simp only [hok, hdone, Bool.false_eq_true, if_false, if_true]
termination_by maxAttempts - a
decreasing_by omega

/-- C8 counterexample: the discovery poller `pollResearch` fetches before
checking the attempt budget, so it does not stop by the 30th attempt.  On
a response stream whose first 30 responses are all non-terminal the claim
says the poller stops with the timeout error; instead it polls a 31st
time, sees the completed response at index 30, and succeeds. -/
theorem pollResearch_counterexample :
    (∀ i, i < maxAttempts → isTerminalDiscoveryResponse (discoveryProbe i) = false) ∧
    pollResearch discoveryProbe 0 = .success ∧
    pollResearch discoveryProbe 0 ≠
      .failure "Research timed out. Please try again." := by
  have hnt : ∀ i, i < maxAttempts →
      isTerminalDiscoveryResponse (discoveryProbe i) = false := by decide
  have hs : pollResearch discoveryProbe 0 = .success :=
    pollResearch_succeeds_late discoveryProbe 0 (by decide)
      (fun i _ h2 => hnt i h2) (by decide) (by decide)
  refine ⟨hnt, hs, ?_⟩
  rw [hs]
  decide

/-- C8 (amended): every run of either client-side status poller
terminates within its attempt budget.  The profile poller
(`loadInfluencerData`) inspects at most the first `maxAttempts = 30`
responses and, when none of them is terminal, stops with the error
`Research timed out. Please try again.`.  The discovery poller
(`pollResearch`) fetches before checking the budget, so it inspects at
most the first `maxAttempts + 1 = 31` responses and stops with the same
timeout error when none of those 31 is terminal. -/
theorem pollers_give_up :
    (∀ fetch g : Nat → PollResponse,
        (∀ i, i < maxAttempts → fetch i = g i) →
          pollLoop fetch 0 = pollLoop g 0) ∧
    (∀ fetch : Nat → PollResponse,
        (∀ i, i < maxAttempts → isTerminalResponse (fetch i) = false) →
          pollLoop fetch 0 = .failure "Research timed out. Please try again.") ∧
    (∀ fetch g : Nat → DiscoveryResponse,
        (∀ i, i ≤ maxAttempts → fetch i = g i) →
          pollResearch fetch 0 = pollResearch g 0) ∧
    (∀ fetch : Nat → DiscoveryResponse,
        (∀ i, i ≤ maxAttempts → isTerminalDiscoveryResponse (fetch i) = false) →
          pollResearch fetch 0 = .failure "Research timed out. Please try again.") := by
  refine ⟨?_, ?_, ?_, ?_⟩
  · intro fetch g hagree
    exact pollLoop_congr fetch g 0 (fun i _ hlt => hagree i hlt)
  · intro fetch hnt
    exact pollLoop_stalls fetch 0 (fun i _ hlt => hnt i hlt)
  · intro fetch g hagree
    exact pollResearch_congr fetch g 0 (Nat.zero_le _) (fun i _ hle => hagree i hle)
  · intro fetch hnt
    exact pollResearch_stalls fetch 0 (Nat.zero_le _) (fun i _ hle => hnt i hle)

/-- Closed witness for `pollers_give_up` on constant in-progress response
streams: both pollers stop with the timeout error. -/
theorem pollers_give_up_witness :
    pollLoop (fun _ => ⟨none, "verifying_claims", false, none⟩) 0 =
      pollLoop (fun _ => ⟨none, "verifying_claims", false, none⟩) 0 ∧
    pollLoop (fun _ => ⟨none, "verifying_claims", false, none⟩) 0 =
      .failure "Research timed out. Please try again." ∧
    pollResearch (fun _ => ⟨true, "analyzing", false⟩) 0 =
      pollResearch (fun _ => ⟨true, "analyzing", false⟩) 0 ∧
    pollResearch (fun _ => ⟨true, "analyzing", false⟩) 0 =
      .failure "Research timed out. Please try again." :=
  ⟨pollers_give_up.1 _ _ (fun _ _ => rfl),
    pollers_give_up.2.1 (fun _ => ⟨none, "verifying_claims", false, none⟩)
      (fun _ _ => rfl),
    pollers_give_up.2.2.1 _ _ (fun _ _ => rfl),
    pollers_give_up.2.2.2 (fun _ => ⟨true, "analyzing", false⟩)
      (fun _ _ => by simp [isTerminalDiscoveryResponse])⟩

/-- C6: the leaderboard list shown after discovery, filtered and sorted by
trust score, is in descending trust-score order: for every pair of
adjacent entries the earlier entry has a trust score at least as large as
the later one. -/
theorem leaderboard_sorted_desc (influencers : List LBInfluencer) (q : String)
    (cat : Option String) (i : Nat)
    (h : i + 1 < (filteredInfluencers influencers q cat "trustScore").length) :
    ((filteredInfluencers influencers q cat "trustScore").get ⟨i + 1, h⟩).trustScore ≤
      ((filteredInfluencers influencers q cat "trustScore").get
        ⟨i, Nat.lt_of_succ_lt h⟩).trustScore := by
  have hs : List.Sorted (sortRel "trustScore")
      (filteredInfluencers influencers q cat "trustScore") :=
    List.sorted_insertionSort (sortRel "trustScore") _
  have hp := List.pairwise_iff_get.mp hs
    ⟨i, Nat.lt_of_succ_lt h⟩ ⟨i + 1, h⟩ (by simp)
  simpa [sortRel, leaderboardLe] using hp

theorem jobInv_step (j j' : ResearchJob) (hinv : JobInv j) (hstep : OrchStep j j') :
    JobInv j' := by
  obtain ⟨hchain, hlast⟩ := hinv
  cases hstep with
  | advance s m t hnext ht =>
    constructor
    · rw [List.chain'_append]
      refine ⟨hchain, List.chain'_singleton _, ?_⟩
      intro x hx y hy
      simp only [List.head?_cons, Option.mem_def, Option.some.injEq] at hy
      subst hy
      refine ⟨?_, Or.inr (Or.inl ?_)⟩
      · have hxt : lastTimestamp j = x.timestamp := by
          unfold lastTimestamp
          rw [Option.mem_def] at hx
          rw [hx]
        show x.timestamp ≤ t
        omega
      · rw [hlast x hx]
        exact hnext
    · intro e he
      simp only [List.getLast?_concat, Option.mem_def, Option.some.injEq] at he
      subst he
      rfl
  | retry m t hterm ht =>
    constructor
    · rw [List.chain'_append]
      refine ⟨hchain, List.chain'_singleton _, ?_⟩
      intro x hx y hy
      simp only [List.head?_cons, Option.mem_def, Option.some.injEq] at hy
      subst hy
      refine ⟨?_, Or.inl ?_⟩
      · have hxt : lastTimestamp j = x.timestamp := by
          unfold lastTimestamp
          rw [Option.mem_def] at hx
          rw [hx]
        show x.timestamp ≤ t
        omega
      · rw [hlast x hx]
    · intro e he
      simp only [List.getLast?_concat, Option.mem_def, Option.some.injEq] at he
      subst he
      rfl
  | fail m t hterm ht =>
    constructor
    · rw [List.chain'_append]
      refine ⟨hchain, List.chain'_singleton _, ?_⟩
      intro x hx y hy
      simp only [List.head?_cons, Option.mem_def, Option.some.injEq] at hy
      subst hy
      refine ⟨?_, Or.inr (Or.inr rfl)⟩
      have hxt : lastTimestamp j = x.timestamp := by
        unfold lastTimestamp
        rw [Option.mem_def] at hx
        rw [hx]
      show x.timestamp ≤ t
      omega
    · intro e he
      simp only [List.getLast?_concat, Option.mem_def, Option.some.injEq] at he
      subst he
      rfl

theorem jobInv_reachable (j0 j : ResearchJob) (hinit : JobInv j0)
    (hreach : JobReachable j0 j) : JobInv j := by
  induction hreach with
  | refl => exact hinit
  | tail _ hstep ih => exact jobInv_step _ _ ih hstep

/-- C1: for every job reachable from its creation by orchestrator
transitions, the progress log observed by pollers is a chain in which
consecutive entries have non-decreasing timestamps and each stage either
repeats the current stage (explicit retry), advances exactly one step in
the fixed order queued, gathering_content, extracting_claims,
verifying_claims, aggregating, complete (no skipping), or moves to
failed. -/
theorem progressLog_monotone (m : String) (t : Nat) (j : ResearchJob)
    (hreach : JobReachable (initialJob m t) j) :
    List.Chain' entryFollows j.progressLog := by
  have hinit : JobInv (initialJob m t) := by
    constructor
    · exact List.chain'_singleton _
    · intro e he
      simp only [initialJob, List.getLast?_singleton, Option.mem_def,
        Option.some.injEq] at he
      subst he
      rfl
  exact (jobInv_reachable _ _ hinit hreach).1

/-- Closed witness for `progressLog_monotone`: the job after one `advance`
transition from a fresh job. -/
theorem progressLog_monotone_witness :
    List.Chain' entryFollows
      [⟨Stage.queued, "created", 5⟩, ⟨Stage.gathering_content, "gathering", 6⟩] :=
  progressLog_monotone "created" 5
    ⟨Stage.gathering_content,
      [⟨Stage.queued, "created", 5⟩, ⟨Stage.gathering_content, "gathering", 6⟩]⟩
    (Relation.ReflTransGen.single
      (OrchStep.advance (initialJob "created" 5) Stage.gathering_content
        "gathering" 6 rfl (by decide)))

theorem lookup_none_not_mem (key : String) (l : List (String × JobRec))
    (h : l.lookup key = none) : key ∉ l.map Prod.fst := by
  induction l with
  | nil => simp
  | cons a t ih =>
    obtain ⟨k, v⟩ := a
    by_cases hk : key = k
    · subst hk
      simp [List.lookup] at h
    · have hbeq : (key == k) = false := by simp [hk]
      simp only [List.lookup, hbeq] at h
      simp only [List.map_cons, List.mem_cons]
      push_neg
      exact ⟨hk, ih h⟩

theorem filter_key_length_le_one (key : String) (l : List (String × JobRec))
    (h : (l.map Prod.fst).Nodup) :
    (l.filter (fun p => p.1 == key)).length ≤ 1 := by
  induction l with
  | nil => simp
  | cons a t ih =>
    simp only [List.map_cons, List.nodup_cons] at h
    obtain ⟨hnotmem, hnd⟩ := h
    by_cases hak : a.1 = key
    · have hfilt : t.filter (fun p => p.1 == key) = [] := by
        rw [List.filter_eq_nil_iff]
        intro p hp
        simp only [beq_iff_eq]
        intro hpk
        exact hnotmem (List.mem_map.mpr ⟨p, hp, by rw [hpk, hak]⟩)
      simp [List.filter_cons, hak, hfilt]
    · have hbeq : (a.1 == key) = false := by simp [hak]
      simp only [List.filter_cons, hbeq, Bool.false_eq_true, if_false]
      exact ih hnd

theorem inFlightCount_le_one (o : Orchestrator) (key : String)
    (h : KeysNodup o) : inFlightCount o key ≤ 1 := by
  unfold inFlightCount
  calc (o.jobs.filter (fun p => p.1 == key && p.2.status == JobStatus.inFlight)).length
      ≤ (o.jobs.filter (fun p => p.1 == key)).length := by
        apply List.Sublist.length_le
        apply List.monotone_filter_right
        intro p hp
        exact (Bool.and_elim_left hp)
    _ ≤ 1 := filter_key_length_le_one key o.jobs h

theorem keysNodup_submit (o : Orchestrator) (key params : String)
    (h : KeysNodup o) : KeysNodup (submit o key params).2 := by
  unfold KeysNodup submit
  cases hlk : o.jobs.lookup key with
  | none =>
    simp only [List.map_cons, List.nodup_cons]
    exact ⟨lookup_none_not_mem key o.jobs hlk, h⟩
  | some j =>
    by_cases hst : j.status = .inFlight ∨ j.status = .cached
    · simp only [if_pos hst]
      exact h
    · simp only [if_neg hst, List.map_cons, List.nodup_cons]
      constructor
      · intro hmem
        obtain ⟨p, hp, hpk⟩ := List.mem_map.mp hmem
        have := List.of_mem_filter hp
        simp [hpk] at this
      · exact List.Nodup.sublist
          (List.Sublist.map Prod.fst (List.filter_sublist _)) h

theorem submit_lookup (o : Orchestrator) (key params : String) :
    ∃ j : JobRec, ((submit o key params).2).jobs.lookup key = some j ∧
      j.jobId = (submit o key params).1 ∧
      (j.status = .inFlight ∨ j.status = .cached) := by
  unfold submit
  cases hlk : o.jobs.lookup key with
  | none =>
    refine ⟨⟨o.nextId, .inFlight, params⟩, ?_, rfl, Or.inl rfl⟩
    simp [List.lookup]
  | some j =>
    by_cases hst : j.status = .inFlight ∨ j.status = .cached
    · simp only [if_pos hst]
      exact ⟨j, hlk, rfl, hst⟩
    · simp only [if_neg hst]
      refine ⟨⟨o.nextId, .inFlight, params⟩, ?_, rfl, Or.inl rfl⟩
      simp [List.lookup]

/-- C2: submission is idempotent and single-flight.  A second `submit`
with the same subjectKey while the job created or returned by the first is
in-flight or cached returns the same jobId and leaves the registry
unchanged (no second pipeline is started); moreover the registry keeps at
most one entry per subjectKey, hence at most one in-flight job per
subjectKey at any time. -/
theorem submit_idempotent (o : Orchestrator) (key params : String)
    (hnodup : KeysNodup o) :
    (submit (submit o key params).2 key params).1 = (submit o key params).1 ∧
    (submit (submit o key params).2 key params).2 = (submit o key params).2 ∧
    KeysNodup (submit o key params).2 ∧
    inFlightCount (submit o key params).2 key ≤ 1 := by
  obtain ⟨j, hlk, hid, hst⟩ := submit_lookup o key params
  have hnd : KeysNodup (submit o key params).2 := keysNodup_submit o key params hnodup
  have hcall : submit (submit o key params).2 key params =
      ((submit o key params).1, (submit o key params).2) := by
    rw [submit.eq_def, hlk]
    dsimp only
    rw [if_pos hst, hid]
  exact ⟨by rw [hcall], by rw [hcall],
    hnd, inFlightCount_le_one _ key hnd⟩

/-- Closed witness for `submit_idempotent`: a fresh registry. -/
theorem submit_idempotent_witness :
    (submit (submit ⟨[], 0⟩ "Dr. Example" "p").2 "Dr. Example" "p").1 =
      (submit ⟨[], 0⟩ "Dr. Example" "p").1 ∧
    (submit (submit ⟨[], 0⟩ "Dr. Example" "p").2 "Dr. Example" "p").2 =
      (submit ⟨[], 0⟩ "Dr. Example" "p").2 ∧
    KeysNodup (submit ⟨[], 0⟩ "Dr. Example" "p").2 ∧
    inFlightCount (submit ⟨[], 0⟩ "Dr. Example" "p").2 "Dr. Example" ≤ 1 :=
  submit_idempotent ⟨[], 0⟩ "Dr. Example" "p" (by simp [KeysNodup])

theorem verifyClaimsFrom_length (i : Nat) (cs : List CandidateClaim)
    (outcomes : Nat → VerifyOutcome) :
    (verifyClaimsFrom i cs outcomes).length = cs.length := by
  induction cs generalizing i with
  | nil => rfl
  | cons c t ih => simp [verifyClaimsFrom, ih]

theorem verifyClaimsFrom_get (i : Nat) (cs : List CandidateClaim)
    (outcomes : Nat → VerifyOutcome) (j : Nat)
    (h : j < (verifyClaimsFrom i cs outcomes).length) (h2 : j < cs.length) :
    (verifyClaimsFrom i cs outcomes).get ⟨j, h⟩ =
      verifyOne (cs.get ⟨j, h2⟩).text (cs.get ⟨j, h2⟩).category (outcomes (i + j)) := by
  induction cs generalizing i j with
  | nil => simp at h2
  | cons c t ih =>
    cases j with
    | zero => rfl
    | succ k =>
      have hk : k < (verifyClaimsFrom (i + 1) t outcomes).length := by
        simp only [verifyClaimsFrom, List.length_cons] at h
        omega
      have hk2 : k < t.length := by
        simp only [List.length_cons] at h2
        omega
      have harith : i + (k + 1) = (i + 1) + k := by omega
      calc (verifyClaimsFrom i (c :: t) outcomes).get ⟨k + 1, h⟩
          = (verifyClaimsFrom (i + 1) t outcomes).get ⟨k, hk⟩ := rfl
        _ = verifyOne (t.get ⟨k, hk2⟩).text (t.get ⟨k, hk2⟩).category
              (outcomes ((i + 1) + k)) := ih (i + 1) k hk hk2
        _ = verifyOne ((c :: t).get ⟨k + 1, h2⟩).text
              ((c :: t).get ⟨k + 1, h2⟩).category (outcomes (i + (k + 1))) := by
            rw [harith]
            rfl

/-- C4: a `VerificationTimeout` on one claim is isolated.  The job still
completes, every candidate claim yields exactly one recorded claim, the
timed-out claim is recorded as `questionable` with an empty citation list,
and the record of any claim depends only on its own verification outcome
(changing other outcomes — e.g. a timeout elsewhere — leaves it
unchanged). -/
theorem verificationTimeout_isolated (cs : List CandidateClaim)
    (o o2 : Nat → VerifyOutcome) (i j : Nat)
    (hi : i < (verifyClaims cs o).length)
    (hj : j < (verifyClaims cs o).length)
    (hj2 : j < (verifyClaims cs o2).length)
    (htimeout : o i = .timeout) (hsame : o j = o2 j) :
    (runVerificationJob cs o).stage = .complete ∧
    (verifyClaims cs o).length = cs.length ∧
    ((verifyClaims cs o).get ⟨i, hi⟩).status = .questionable ∧
    ((verifyClaims cs o).get ⟨i, hi⟩).sourceCitations = [] ∧
    (verifyClaims cs o).get ⟨j, hj⟩ = (verifyClaims cs o2).get ⟨j, hj2⟩ := by
  have hlen := verifyClaimsFrom_length 0 cs o
  have hi2 : i < cs.length := by
    unfold verifyClaims at hi
    omega
  have hjc : j < cs.length := by
    unfold verifyClaims at hj
    omega
  have hgi := verifyClaimsFrom_get 0 cs o i hi hi2
  have hgj := verifyClaimsFrom_get 0 cs o j hj hjc
  have hgj2 := verifyClaimsFrom_get 0 cs o2 j hj2 hjc
  refine ⟨rfl, hlen, ?_, ?_, ?_⟩
  · show ((verifyClaimsFrom 0 cs o).get ⟨i, hi⟩).status = .questionable
    rw [hgi, Nat.zero_add, htimeout]
    rfl
  · show ((verifyClaimsFrom 0 cs o).get ⟨i, hi⟩).sourceCitations = []
    rw [hgi, Nat.zero_add, htimeout]
    rfl
  · show (verifyClaimsFrom 0 cs o).get ⟨j, hj⟩ = (verifyClaimsFrom 0 cs o2).get ⟨j, hj2⟩
    rw [hgj, hgj2]
    simp only [Nat.zero_add]
    rw [hsame]

/-- Closed witness for `verificationTimeout_isolated`: ten claims of which
the one at index 3 times out; the job completes with the other nine
unaffected. -/
theorem verificationTimeout_isolated_witness :
    (runVerificationJob (List.replicate 10 ⟨"c", "nutrition"⟩)
        (fun n => if n = 3 then .timeout
          else .evidence [⟨"T", "Nature", "u", false, false⟩])).stage = .complete ∧
    (verifyClaims (List.replicate 10 ⟨"c", "nutrition"⟩)
        (fun n => if n = 3 then .timeout
          else .evidence [⟨"T", "Nature", "u", false, false⟩])).length =
      (List.replicate (10 : Nat) (⟨"c", "nutrition"⟩ : CandidateClaim)).length ∧
    ((verifyClaims (List.replicate 10 ⟨"c", "nutrition"⟩)
        (fun n => if n = 3 then .timeout
          else .evidence [⟨"T", "Nature", "u", false, false⟩])).get
      ⟨3, by decide⟩).status = .questionable ∧
    ((verifyClaims (List.replicate 10 ⟨"c", "nutrition"⟩)
        (fun n => if n = 3 then .timeout
          else .evidence [⟨"T", "Nature", "u", false, false⟩])).get
      ⟨3, by decide⟩).sourceCitations = [] ∧
    (verifyClaims (List.replicate 10 ⟨"c", "nutrition"⟩)
        (fun n => if n = 3 then .timeout
          else .evidence [⟨"T", "Nature", "u", false, false⟩])).get ⟨5, by decide⟩ =
      (verifyClaims (List.replicate 10 ⟨"c", "nutrition"⟩)
        (fun _ => .evidence [⟨"T", "Nature", "u", false, false⟩])).get ⟨5, by decide⟩ :=
  verificationTimeout_isolated (List.replicate 10 ⟨"c", "nutrition"⟩)
    (fun n => if n = 3 then .timeout
      else .evidence [⟨"T", "Nature", "u", false, false⟩])
    (fun _ => .evidence [⟨"T", "Nature", "u", false, false⟩])
    3 5 (by decide) (by decide) (by decide) (by decide) (by decide)

theorem clamp100_mem (x : Int) : 0 ≤ clamp100 x ∧ clamp100 x ≤ 100 := by
  unfold clamp100
  constructor
  · exact le_min (le_max_right _ _) (by norm_num)
  · exact min_le_right _ _

/-- C5: every claim produced by verification has a trust score in
`[0, 100]`, and a claim recorded with zero citations has status
`questionable` and trust score at most 50. -/
theorem trustScore_bounds (text category : String) (o : VerifyOutcome) :
    (0 ≤ (verifyOne text category o).trustScore ∧
      (verifyOne text category o).trustScore ≤ 100) ∧
    ((verifyOne text category o).sourceCitations = [] →
      (verifyOne text category o).status = .questionable ∧
        (verifyOne text category o).trustScore ≤ 50) := by
  cases o with
  | timeout =>
    refine ⟨⟨?_, ?_⟩, fun _ => ⟨rfl, ?_⟩⟩
    · show (0 : Int) ≤ scoreOf []
      decide
    · show scoreOf [] ≤ 100
      decide
    · show scoreOf [] ≤ 50
      decide
  | evidence cs =>
    refine ⟨clamp100_mem _, fun hempty => ?_⟩
    have hcs : cs = [] := hempty
    subst hcs
    refine ⟨rfl, ?_⟩
    show scoreOf [] ≤ 50
    decide

/-- Closed witness for `trustScore_bounds` at a timed-out claim. -/
theorem trustScore_bounds_witness :
    (0 ≤ (verifyOne "c" "nutrition" .timeout).trustScore ∧
      (verifyOne "c" "nutrition" .timeout).trustScore ≤ 100) ∧
    ((verifyOne "c" "nutrition" .timeout).sourceCitations = [] →
      (verifyOne "c" "nutrition" .timeout).status = .questionable ∧
        (verifyOne "c" "nutrition" .timeout).trustScore ≤ 50) :=
  trustScore_bounds "c" "nutrition" .timeout

/-- C7: cache round-trip.  After a completed job writes its snapshot at
time `t0`, every `getInfluencer` for that subject at a time within the
24-hour TTL returns exactly the cached snapshot marked `fromCache` and
leaves the backend state — in particular the upstream call counter —
unchanged. -/
theorem cache_round_trip (b : Backend) (key : String) (s : Snapshot)
    (t0 now : Nat) (h : now < t0 + cacheTTLms) :
    (getInfluencer (completeJob b key s t0) key now).1 =
      GetInfluencerResult.snapshot s true ∧
    (getInfluencer (completeJob b key s t0) key now).2 = completeJob b key s t0 := by
  unfold getInfluencer completeJob
  simp [List.lookup, h]

/-- Closed witness for `cache_round_trip`: a snapshot written at time 0
and read back 1000 ms later. -/
theorem cache_round_trip_witness :
    (getInfluencer (completeJob ⟨[], 0⟩ "Dr. Example"
        ⟨"Dr. Example", "Nutrition", 80, []⟩ 0) "Dr. Example" 1000).1 =
      GetInfluencerResult.snapshot ⟨"Dr. Example", "Nutrition", 80, []⟩ true ∧
    (getInfluencer (completeJob ⟨[], 0⟩ "Dr. Example"
        ⟨"Dr. Example", "Nutrition", 80, []⟩ 0) "Dr. Example" 1000).2 =
      completeJob ⟨[], 0⟩ "Dr. Example" ⟨"Dr. Example", "Nutrition", 80, []⟩ 0 :=
  cache_round_trip ⟨[], 0⟩ "Dr. Example" ⟨"Dr. Example", "Nutrition", 80, []⟩ 0 1000
    (by decide)

/-- Closed witness for `leaderboard_sorted_desc` on a two-element
discovery result with an empty search query and no category filter. -/
theorem leaderboard_sorted_desc_witness :
    ((filteredInfluencers
        [⟨"A", none, "Nutrition", none, 40, 1000, none⟩,
         ⟨"B", none, "Fitness", none, 90, 2000, none⟩] "" none "trustScore").get
      ⟨1, by decide⟩).trustScore ≤
      ((filteredInfluencers
          [⟨"A", none, "Nutrition", none, 40, 1000, none⟩,
           ⟨"B", none, "Fitness", none, 90, 2000, none⟩] "" none "trustScore").get
        ⟨0, by decide⟩).trustScore :=
  leaderboard_sorted_desc
    [⟨"A", none, "Nutrition", none, 40, 1000, none⟩,
     ⟨"B", none, "Fitness", none, 90, 2000, none⟩] "" none 0 (by decide)

end ClaimMaster
